import Mathlib

/-!
Verification development for the InsightView remote security-scan
orchestrator (`src/collectors/zapScan.ts` and the `failOnHighRisks`
policy gate in `src/monitoring.ts`).

The TypeScript code is shallowly embedded: each Lean definition mirrors
one source function.  Asynchronous operations against the scan daemon
are parameterised by their outcomes (`AttemptOutcome` per retry
attempt, or an `Except` per poll), time is passed explicitly as the
elapsed milliseconds observed at each loop head, and thrown JavaScript
errors become `Except.error` / explicit result constructors.
-/

namespace ZapScan

/-- One invocation of a fallible daemon operation either resolves with a
value or rejects with an error message. -/
inductive AttemptOutcome (α : Type) where
  | ok (val : α)
  | err (msg : String)
deriving Repr

/-- `listStartsWith s p` is true when `p` is a prefix of `s` (helper for
the substring test used by JavaScript `String.prototype.includes`). -/
def listStartsWith : List Char → List Char → Bool
  | _, [] => true
  | [], _ :: _ => false
  | a :: s, b :: p => a == b && listStartsWith s p

/-- `listContainsSub s p`: `p` occurs as a contiguous sublist of `s`. -/
def listContainsSub : List Char → List Char → Bool
  | s, p =>
    listStartsWith s p ||
      match s with
      | [] => false
      | _ :: t => listContainsSub t p

/-- Model of JavaScript `msg.includes(pat)`. -/
def strIncludes (s pat : String) : Bool :=
  listContainsSub s.data pat.data

/-- `zapScan.ts` lines 108-110: an error is classified as a network
error when its message contains `ECONNREFUSED`, `ETIMEDOUT` or
`socket hang up`. -/
def isNetworkError (msg : String) : Bool :=
  strIncludes msg "ECONNREFUSED" ||
  strIncludes msg "ETIMEDOUT" ||
  strIncludes msg "socket hang up"

/-- `ZAPScanner.scanRetries` (line 8). -/
def scanRetries : Nat := 3

/-- `ZAPScanner.scanRetryDelay`, milliseconds (line 9). -/
def scanRetryDelay : Nat := 5000

/-- The message of the error thrown by `withRetry` after the final
failed attempt (line 128):
`$name failed after $scanRetries attempts. Last error: $lastMsg`. -/
def retryFailMsg (name : String) (lastMsg : String) : String :=
  name ++ " failed after " ++ toString scanRetries ++
    " attempts. Last error: " ++ lastMsg

/-- Observable trace of one `withRetry` call: the final result, how many
times the wrapped operation was invoked, and the backoff delays slept
between consecutive attempts (in order). -/
structure RetryTrace (α : Type) where
  result : Except String α
  calls : Nat
  delays : List Nat
deriving Repr

/-- Loop body of `withRetry` (lines 103-126).  `remaining` counts the
attempts still allowed (starts at `scanRetries`), `attempt` is the
1-based attempt number handed to the operation, `backoff` is the
current `backoffDelay`.  On a failure at a non-final attempt the delay
is doubled first when the error is a network error, then slept. -/
def withRetryGo {α : Type} (op : Nat → AttemptOutcome α) :
    Nat → Nat → Nat → String → RetryTrace α
  | 0, _, _, lastMsg =>
    { result := Except.error lastMsg, calls := 0, delays := [] }
  | r + 1, attempt, backoff, _ =>
    match op attempt with
    | AttemptOutcome.ok v =>
      { result := Except.ok v, calls := 1, delays := [] }
    | AttemptOutcome.err msg =>
      match r with
      | 0 =>
        { result := Except.error msg, calls := 1, delays := [] }
      | r' + 1 =>
        let backoff' := if isNetworkError msg then backoff * 2 else backoff
        let rest := withRetryGo op (r' + 1) (attempt + 1) backoff' msg
        { result := rest.result, calls := rest.calls + 1,
          delays := backoff' :: rest.delays }

/-- `ZAPScanner.withRetry` (lines 99-129), with the raw last error
message replaced by the composite message actually thrown on final
failure. -/
def withRetry {α : Type} (op : Nat → AttemptOutcome α) (name : String) :
    RetryTrace α :=
  let t := withRetryGo op scanRetries 1 scanRetryDelay ""
  match t.result with
  | Except.ok v => { t with result := Except.ok v }
  | Except.error msg => { t with result := Except.error (retryFailMsg name msg) }

/-! ### Progress polling (`waitForCompletion`, lines 706-754) -/

/-- Model of JavaScript `parseInt(s, 10)`: skip leading whitespace, an
optional sign, then read a non-empty decimal digit prefix; `none`
models `NaN`. -/
def parseIntM (s : String) : Option Int :=
  let cs := s.data.dropWhile (fun c => c.isWhitespace)
  let signAndRest : Int × List Char :=
    match cs with
    | '-' :: t => (-1, t)
    | '+' :: t => (1, t)
    | _ => (1, cs)
  let digits := signAndRest.2.takeWhile (fun c => c.isDigit)
  if digits.isEmpty then none
  else
    some (signAndRest.1 *
      Int.ofNat (digits.foldl (fun n c => n * 10 + (c.toNat - '0'.toNat)) 0))

/-- `maxStaleChecks` (line 715): 12 polls of 5 s ≈ 1 minute. -/
def maxStaleChecks : Nat := 12

/-- Poll interval of `waitForCompletion` in milliseconds (line 722). -/
def pollIntervalMs : Nat := 5000

/-- Hard phase timeouts in milliseconds (`ZAPScanner.timeouts`,
lines 10-14). -/
structure TimeoutsCfg where
  spider : Nat
  ajaxSpider : Nat
  activeScan : Nat
deriving Repr

/-- `timeouts = { spider: 2 h, ajaxSpider: 2 h, activeScan: 4 h }`. -/
def timeouts : TimeoutsCfg :=
  { spider := 7200000, ajaxSpider := 7200000, activeScan := 14400000 }

/-- How one `waitForCompletion` run ends.  `pending` means the modelled
(finite) poll input was exhausted while the real loop would still be
polling. -/
inductive PollResult where
  | completed
  | pending
  | timedOut (elapsed : Nat)
  | stalled (progress : Int)
  | checkFailed (msg : String)
  | invalidStatus (msg : String)
deriving DecidableEq, Repr

/-- True exactly on the `stalled` outcome. -/
def PollResult.isStalled : PollResult → Bool
  | PollResult.stalled _ => true
  | _ => false

/-- True exactly on the `timedOut` outcome. -/
def PollResult.isTimedOut : PollResult → Bool
  | PollResult.timedOut _ => true
  | _ => false

/-- True exactly on the `pending` outcome. -/
def PollResult.isPending : PollResult → Bool
  | PollResult.pending => true
  | _ => false

/-- Loop of `waitForCompletion` (lines 717-753).  Each element of
`polls` scripts one iteration: the wall-clock milliseconds elapsed at
the loop head, and the outcome of the retry-wrapped status check
(`withRetry(() => checkStatus(), ...)`).  `lastProgress` and
`staleCount` carry the stall-detection state (initially `0` and `0`).
The timeout test precedes the status check; the stall bookkeeping
applies to statuses that parse as numbers and precedes the
`isComplete` test; errors thrown by `isComplete` propagate. -/
def goPoll (isComplete : String → Except String Bool) (timeout : Nat) :
    List (Nat × Except String String) → Int → Nat → PollResult
  | [], _, _ => PollResult.pending
  | (elapsed, statusRes) :: rest, lastProgress, staleCount =>
    if timeout < elapsed then PollResult.timedOut elapsed
    else
      match statusRes with
      | Except.error msg => PollResult.checkFailed msg
      | Except.ok status =>
        let staleStep : (Int × Nat) ⊕ Int :=
          match parseIntM status with
          | some p =>
            if p = lastProgress then
              if maxStaleChecks ≤ staleCount + 1 then Sum.inr p
              else Sum.inl (lastProgress, staleCount + 1)
            else Sum.inl (p, 0)
          | none => Sum.inl (lastProgress, staleCount)
        match staleStep with
        | Sum.inr p => PollResult.stalled p
        | Sum.inl (lp, sc) =>
          match isComplete status with
          | Except.error m => PollResult.invalidStatus m
          | Except.ok true => PollResult.completed
          | Except.ok false => goPoll isComplete timeout rest lp sc

/-- `ZAPScanner.waitForCompletion` (lines 706-754).  The `operation`
label only feeds log and error messages. -/
def waitForCompletion (isComplete : String → Except String Bool)
    (operation : String) (timeout : Nat)
    (polls : List (Nat × Except String String)) : PollResult :=
  goPoll isComplete timeout polls 0 0

/-- Spider completion test (lines 758-765): a non-numeric status is an
error, completion is progress ≥ 100. -/
def spiderIsComplete (status : String) : Except String Bool :=
  match parseIntM status with
  | none => Except.error ("Invalid spider status: " ++ status)
  | some p => Except.ok (decide (100 ≤ p))

/-- AJAX spider completion test (line 774): any status other than
`running` completes; no numeric parsing failure is possible. -/
def ajaxSpiderIsComplete (status : String) : Except String Bool :=
  Except.ok (status != "running")

/-- Active-scan completion test (lines 782-788). -/
def ascanIsComplete (status : String) : Except String Bool :=
  match parseIntM status with
  | none => Except.error ("Invalid scan status: " ++ status)
  | some p => Except.ok (decide (100 ≤ p))

/-- `waitForSpiderCompletion` (lines 756-769): 2 h timeout. -/
def waitForSpiderCompletion (polls : List (Nat × Except String String)) :
    PollResult :=
  waitForCompletion spiderIsComplete "Spider Scan" timeouts.spider polls

/-- `waitForAjaxSpiderCompletion` (lines 771-778): 2 h timeout. -/
def waitForAjaxSpiderCompletion (polls : List (Nat × Except String String)) :
    PollResult :=
  waitForCompletion ajaxSpiderIsComplete "AJAX Spider" timeouts.ajaxSpider polls

/-- `waitForScanCompletion` (lines 780-793): the poller timeout is the
hardcoded `timeouts.activeScan` (4 h). -/
def waitForScanCompletion (polls : List (Nat × Except String String)) :
    PollResult :=
  waitForCompletion ascanIsComplete "Active Scan" timeouts.activeScan polls

/-- The numeric progress values reported by a scripted poll sequence,
in order (statuses that fail the status check or do not parse as
numbers contribute nothing). -/
def pollValues (polls : List (Nat × Except String String)) : List Int :=
  polls.filterMap (fun pr =>
    match pr.2 with
    | Except.ok s => parseIntM s
    | Except.error _ => none)

/-- `HasConstRun l k`: some `k` consecutive entries of `l` are all
equal.  `HasConstRun (0 :: pollValues polls) (maxStaleChecks + 1)` says
that 12 consecutive polls each reported a numeric value unchanged from
the previous one (the tracked value starts at 0). -/
def HasConstRun (l : List Int) (k : Nat) : Prop :=
  ∃ i, i + k ≤ l.length ∧ ∀ j, j < k → l.get? (i + j) = l.get? i

/-- Executable version of `HasConstRun`. -/
def hasConstRunB (l : List Int) (k : Nat) : Bool :=
  (List.range (l.length + 1)).any (fun i =>
    decide (i + k ≤ l.length) &&
      (List.range k).all (fun j => l.get? (i + j) == l.get? i))

instance instDecHasConstRun (l : List Int) (k : Nat) :
    Decidable (HasConstRun l k) :=
  decidable_of_iff (hasConstRunB l k = true) (by
    unfold hasConstRunB HasConstRun
    simp only [List.any_eq_true, List.mem_range, Bool.and_eq_true,
      decide_eq_true_eq, List.all_eq_true, beq_iff_eq]
    constructor
    · rintro ⟨i, _, h1, h2⟩
      exact ⟨i, h1, fun j hj => h2 j hj⟩
    · rintro ⟨i, hi, hall⟩
      exact ⟨i, Nat.lt_succ_of_le (le_trans (Nat.le_add_right i k) hi),
        hi, fun j hj => hall j hj⟩)

/-! ### Data model (`src/types/index.ts`) -/

/-- `AlertRisk` (types line 59). -/
inductive AlertRisk where
  | High
  | Medium
  | Low
  | Informational
deriving DecidableEq, Repr

/-- `ZAPScanStats.alertsByRisk : Record<AlertRisk, number>`. -/
structure RiskCounts where
  High : Nat
  Medium : Nat
  Low : Nat
  Informational : Nat
deriving DecidableEq, Repr

/-- `ZAPScanStats.timeMetrics`. -/
structure TimeMetrics where
  spiderDuration : Nat
  ajaxSpiderDuration : Nat
  activeScanDuration : Nat
  totalDuration : Nat
deriving DecidableEq, Repr

/-- `ZAPScanStats` (types lines 80-91). -/
structure ZAPScanStats where
  totalUrls : Nat
  uniqueUrls : Nat
  requestCount : Nat
  alertsByRisk : RiskCounts
  timeMetrics : TimeMetrics
deriving DecidableEq, Repr

/-- One `{phase, message, timestamp}` error record. -/
structure PhaseError where
  phase : String
  message : String
  timestamp : String
deriving DecidableEq, Repr

/-- An alert URL as seen by `sanitizeUrl` (lines 416-427): either `new
URL(url)` succeeded, giving a base (scheme, host, path, fragment) and
the ordered query parameters, or parsing failed and only the raw
string is available. -/
inductive UrlInput where
  | parsed (base : String) (params : List (String × String))
  | raw (s : String)
deriving DecidableEq, Repr

/-- An alert as delivered by the daemon (`alertsByContext` response,
after `parseZapResponse`), with the field names used on lines
673-688. -/
structure RawAlert where
  risk : AlertRisk
  confidence : String
  url : UrlInput
  name : String
  description : String
  solution : String
  reference : String
  param : String
  attack : String
  evidence : String
  cweid : String
  wascid : String
  pluginid : String
deriving DecidableEq, Repr

/-- An alert of the produced `ZAPScanResult` (types lines 62-77). -/
structure ZAPAlert where
  risk : AlertRisk
  confidence : String
  url : UrlInput
  name : String
  description : String
  solution : String
  reference : String
  param : String
  attack : String
  evidence : String
  cweId : String
  wascId : String
  scanId : Option Int
  pluginId : String
deriving DecidableEq, Repr

/-- `ZAPScanResult.status` (types line 100). -/
inductive ScanStatus where
  | completed
  | failed
deriving DecidableEq, Repr

/-- `ZAPScanResult` (types lines 93-105). -/
structure ZAPScanResult where
  scanId : Nat
  duration : Nat
  timestamp : String
  targetUrl : String
  scanType : String
  contextName : String
  status : ScanStatus
  stats : ZAPScanStats
  alerts : List ZAPAlert
  errors : List PhaseError
  errorReport : String
deriving DecidableEq, Repr

/-- `ZAPScanOptions` (types lines 119-128).  `maxDepth` is read by
`executeScan` (line 597) although the TypeScript interface does not
declare it. -/
structure ZAPScanOptions where
  authHeaders : List (String × String)
  maxRequestsPerSecond : Nat
  maxScanDuration : Nat
  failOnHighRisks : Bool
  excludeUrls : List String
  includeUrls : List String
  scanPolicyName : Option String
  threadCount : Option Nat
  maxDepth : Option Nat
deriving DecidableEq, Repr

/-! ### URL sanitization (`sanitizeUrl`, lines 416-427) -/

/-- The query-parameter names `sanitizeUrl` removes (line 420). -/
def sensitiveParams : List String :=
  ["key", "token", "password", "secret", "auth"]

/-- Case-insensitive prefix strip: `stripCI cs p` returns the remainder
of `cs` after the prefix `p` (compared char-wise, lower-cased), or
`none`. -/
def stripCI : List Char → List Char → Option (List Char)
  | cs, [] => some cs
  | [], _ :: _ => none
  | c :: cs, p :: ps => if c.toLower = p.toLower then stripCI cs ps else none

/-- At a position right after a `?` or `&`, try to match
`(key|token|password|secret|auth)=` case-insensitively and, on
success, also consume the `[^&]*` value; returns the rest of the
input. -/
def matchSensitiveAt (cs : List Char) : Option (List Char) :=
  match (sensitiveParams.filterMap
      (fun n => stripCI cs (n.data ++ ['=']))).head? with
  | some rest => some (rest.dropWhile (fun c => c ≠ '&'))
  | none => none

/-- Scanner for the fallback regex replacement
`url.replace(/[?&](key|token|password|secret|auth)=[^&]*/gi, '')`
(line 425): leftmost, non-overlapping matches are dropped.  Every step
consumes at least one input character, so `fuel = length` suffices. -/
def sanitizeRawAux : Nat → List Char → List Char
  | 0, cs => cs
  | _ + 1, [] => []
  | fuel + 1, c :: rest =>
    if c = '?' ∨ c = '&' then
      match matchSensitiveAt rest with
      | some rest' => sanitizeRawAux fuel rest'
      | none => c :: sanitizeRawAux fuel rest
    else c :: sanitizeRawAux fuel rest

/-- The `catch` branch of `sanitizeUrl`. -/
def sanitizeRawUrl (s : String) : String :=
  String.mk (sanitizeRawAux s.data.length s.data)

/-- `ZAPScanner.sanitizeUrl` (lines 416-427): on a parseable URL each
sensitive parameter is deleted via `searchParams.delete` (exact,
case-sensitive name match); otherwise the regex fallback rewrites the
raw string. -/
def sanitizeUrl : UrlInput → UrlInput
  | UrlInput.parsed base params =>
    UrlInput.parsed base
      (params.filter (fun pr => !(sensitiveParams.contains pr.1)))
  | UrlInput.raw s => UrlInput.raw (sanitizeRawUrl s)

/-! ### Result aggregation and the scan pipeline -/

/-- `formatErrorReport` (lines 400-414): errors grouped by phase in
first-appearance order, each line `[timestamp] message`. -/
def formatErrorReport (errors : List PhaseError) : String :=
  if errors.isEmpty then "No errors occurred during the scan."
  else
    String.intercalate "\n\n"
      (((errors.map (fun e => e.phase)).eraseDups).map (fun ph =>
        ph ++ ":\n  " ++
          String.intercalate "\n  "
            ((errors.filter (fun e => e.phase == ph)).map
              (fun e => "[" ++ e.timestamp ++ "] " ++ e.message))))

/-- The zeroed `ZAPScanStats` built at the top of `executeScan`
(lines 563-579); the `catch` of `performScan` (lines 465-481) builds
the same zero record. -/
def initialStats : ZAPScanStats :=
  { totalUrls := 0
    uniqueUrls := 0
    requestCount := 0
    alertsByRisk := { High := 0, Medium := 0, Low := 0, Informational := 0 }
    timeMetrics :=
      { spiderDuration := 0, ajaxSpiderDuration := 0,
        activeScanDuration := 0, totalDuration := 0 } }

/-- `stats.alertsByRisk[risk]++` (line 660) for one alert. -/
def bumpRisk (counts : RiskCounts) : AlertRisk → RiskCounts
  | AlertRisk.High => { counts with High := counts.High + 1 }
  | AlertRisk.Medium => { counts with Medium := counts.Medium + 1 }
  | AlertRisk.Low => { counts with Low := counts.Low + 1 }
  | AlertRisk.Informational =>
    { counts with Informational := counts.Informational + 1 }

/-- The `alerts.forEach` aggregation loop (lines 658-661). -/
def bumpAll (counts : RiskCounts) (alerts : List RawAlert) : RiskCounts :=
  alerts.foldl (fun c a => bumpRisk c a.risk) counts

/-- The alert mapping of lines 673-689: URLs are sanitized, `cweid`,
`wascid` and `pluginid` are renamed, `scanId` is `parseInt(pluginid)`
or undefined. -/
def mapAlert (a : RawAlert) : ZAPAlert :=
  { risk := a.risk
    confidence := a.confidence
    url := sanitizeUrl a.url
    name := a.name
    description := a.description
    solution := a.solution
    reference := a.reference
    param := a.param
    attack := a.attack
    evidence := a.evidence
    cweId := a.cweid
    wascId := a.wascid
    scanId := parseIntM a.pluginid
    pluginId := a.pluginid }

/-- Scripted outcomes of every daemon interaction one `performScan`
call can make.  Each `... Ops` field gives, per 1-based retry attempt,
the outcome of the corresponding (composite) awaited operation;
`spiderPolls` / `ascanPolls` script the status-poll loops.  `now`,
`scanStart` and `nowStr` stand for the `Date.now()` /
`toISOString()` readings (claims never depend on them). -/
structure ScanEnv where
  version : Except String String
  configOps : Nat → AttemptOutcome Unit
  authHeaderOps : Nat → AttemptOutcome Unit
  ctxOps : Nat → AttemptOutcome Unit
  initOps : Nat → AttemptOutcome Unit
  spiderStartOps : Nat → AttemptOutcome String
  spiderPolls : List (Nat × Except String String)
  ascanStartOps : Nat → AttemptOutcome String
  ascanPolls : List (Nat × Except String String)
  alertOps : Nat → AttemptOutcome (List RawAlert)
  countOps : Nat → AttemptOutcome Nat
  targetUrl : String
  now : Nat
  scanStart : Nat
  nowStr : String

/-- `verifyZapConnection` (lines 81-91): any failure (or an empty
version) is rewrapped with the `Failed to verify ZAP connection:`
prefix. -/
def verifyZapConnection (version : Except String String) :
    Except String Unit :=
  match version with
  | Except.error m =>
    Except.error ("Failed to verify ZAP connection: " ++ m)
  | Except.ok v =>
    if v = "" then
      Except.error
        ("Failed to verify ZAP connection: No version returned from ZAP API")
    else Except.ok ()

/-- The message of the error a finished poll loop throws (lines 719 and
733); `completed`/`pending` never throw. -/
def pollFailureMsg (operation : String) (timeout : Nat) :
    PollResult → String
  | PollResult.timedOut _ =>
    operation ++ " timed out after " ++ toString (timeout / 1000) ++ " seconds"
  | PollResult.stalled p =>
    operation ++ " appears to be stalled at " ++ toString p ++
      "% for over 1 minute"
  | PollResult.checkFailed m => m
  | PollResult.invalidStatus m => m
  | _ => ""

/-- `collectScanResults` (lines 648-694): fetch alerts and the request
count (each behind `withRetry`), bump the per-risk counters over the
zero-initialised `stats`, and assemble a `completed` result with
sanitized alert URLs. -/
def collectScanResults (env : ScanEnv) (contextName : String)
    (stats : ZAPScanStats) (isFullScan : Bool) (errors : List PhaseError) :
    Except String ZAPScanResult :=
  match (withRetry env.alertOps "Alert Collection").result with
  | Except.error e => Except.error e
  | Except.ok alerts =>
    match (withRetry env.countOps "Request Count").result with
    | Except.error e => Except.error e
    | Except.ok requestCount =>
      let totalDuration := env.now - env.scanStart
      let stats1 : ZAPScanStats :=
        { stats with
          requestCount := requestCount
          alertsByRisk := bumpAll stats.alertsByRisk alerts
          timeMetrics := { stats.timeMetrics with totalDuration := totalDuration } }
      Except.ok
        { scanId := env.now
          duration := totalDuration
          timestamp := env.nowStr
          targetUrl := env.targetUrl
          scanType := if isFullScan then "full" else "quick"
          contextName := contextName
          status := ScanStatus.completed
          stats := stats1
          alerts := alerts.map mapAlert
          errors := errors
          errorReport := formatErrorReport errors }

/-- The ascan options object built inside `executeScan` (lines
612-627): `maxDuration` is the configured `maxScanDuration`, threads
default to 4 and are capped at 6, the delay is `ceil(1000 / rate)`
with rate defaulting to 10. -/
structure AscanOptions where
  maxDuration : Nat
  maxAlertsPerRule : Nat
  maxScansInUI : Nat
  threadPerHost : Nat
  delayInMs : Nat
  handleAntiCSRFTokens : Bool
deriving DecidableEq, Repr

/-- `options.threadCount || 4` capped at 6 (line 582). -/
def effectiveThreadCount (options : ZAPScanOptions) : Nat :=
  min (match options.threadCount with
       | none => 4
       | some 0 => 4
       | some n => n) 6

/-- `Math.ceil(1000 / (options.maxRequestsPerSecond || 10))`
(line 583). -/
def effectiveMinDelay (options : ZAPScanOptions) : Nat :=
  let rate := if options.maxRequestsPerSecond = 0 then 10
              else options.maxRequestsPerSecond
  (1000 + rate - 1) / rate

/-- The scan options passed to `ascan.scan` by `executeScan`
(lines 619-626). -/
def ascanScanOptions (options : ZAPScanOptions) (isFullScan : Bool) :
    AscanOptions :=
  { maxDuration := options.maxScanDuration
    maxAlertsPerRule := if isFullScan then 0 else 10
    maxScansInUI := effectiveThreadCount options
    threadPerHost := effectiveThreadCount options
    delayInMs := effectiveMinDelay options
    handleAntiCSRFTokens := true }

/-- `executeScan` (lines 562-646).  Phases run in sequence; the first
thrown error propagates unchanged (the local `errors` list built in
its `catch` is discarded because `performScan` builds a fresh one).
`none` models a poll loop that never terminates within the scripted
input. -/
def executeScan (env : ScanEnv) (contextName : String) (isFullScan : Bool)
    (options : ZAPScanOptions) : Option (Except String ZAPScanResult) :=
  match (withRetry env.initOps "Scan Initialization").result with
  | Except.error e => some (Except.error e)
  | Except.ok _ =>
    match (withRetry env.spiderStartOps "Spider Scan Start").result with
    | Except.error e => some (Except.error e)
    | Except.ok _ =>
      match waitForSpiderCompletion env.spiderPolls with
      | PollResult.pending => none
      | PollResult.completed =>
        match (withRetry env.ascanStartOps "Active Scan Start").result with
        | Except.error e => some (Except.error e)
        | Except.ok _ =>
          match waitForScanCompletion env.ascanPolls with
          | PollResult.pending => none
          | PollResult.completed =>
            some (collectScanResults env contextName initialStats isFullScan [])
          | other =>
            some (Except.error
              (pollFailureMsg "Active Scan" timeouts.activeScan other))
      | other =>
        some (Except.error
          (pollFailureMsg "Spider Scan" timeouts.spider other))

/-- What a failed `performScan` throws: either a plain error (the
pre-`try` `verifyZapConnection` failure, line 430) or the composite
`Scan failed:` error of the `catch` block (line 487), which embeds the
serialized partial result. -/
inductive ScanThrow where
  | plain (msg : String)
  | withResult (msg : String) (res : ZAPScanResult)
deriving DecidableEq, Repr

/-- The partial result built in the `catch` of `performScan`
(lines 458-485): fresh zero stats, a single `Fatal Error` phase error,
status `failed` (the `Partial<ZAPScanResult>` has no alert list). -/
def performScanCatchResult (env : ScanEnv) (isFullScan : Bool)
    (contextName : String) (errorMsg : String) : ZAPScanResult :=
  let errs : List PhaseError :=
    [{ phase := "Fatal Error", message := errorMsg, timestamp := env.nowStr }]
  { scanId := env.now
    duration := env.now - env.scanStart
    timestamp := env.nowStr
    targetUrl := env.targetUrl
    scanType := if isFullScan then "full" else "quick"
    contextName := contextName
    status := ScanStatus.failed
    stats := initialStats
    alerts := []
    errors := errs
    errorReport := formatErrorReport errs }

/-- `performScan` (lines 429-489).  `verifyZapConnection` runs before
the `try`, so its failure throws without an embedded partial result;
every failure inside the `try` is converted by the `catch` into a
`Scan failed:` error embedding the partial `failed` result. -/
def performScan (env : ScanEnv) (isFullScan : Bool)
    (options : ZAPScanOptions) :
    Option (Except ScanThrow ZAPScanResult) :=
  match verifyZapConnection env.version with
  | Except.error m => some (Except.error (ScanThrow.plain m))
  | Except.ok _ =>
    let contextName := "scan-context-" ++ toString env.now
    let tryResult : Option (Except String ZAPScanResult) :=
      match (withRetry env.configOps "ZAP Configuration").result with
      | Except.error e => some (Except.error e)
      | Except.ok _ =>
        match (withRetry env.authHeaderOps "Setting Auth Headers").result with
        | Except.error e => some (Except.error e)
        | Except.ok _ =>
          match (withRetry env.ctxOps "Context Initialization").result with
          | Except.error e => some (Except.error e)
          | Except.ok _ => executeScan env contextName isFullScan options
    match tryResult with
    | none => none
    | some (Except.ok r) => some (Except.ok r)
    | some (Except.error e) =>
      some (Except.error (ScanThrow.withResult ("Scan failed: " ++ e)
        (performScanCatchResult env isFullScan contextName e)))

/-! ### The failed-phase handlers (`retryOperation` … `handleAjaxSpiderPhase`,
lines 168-325) -/

/-- `retryOperation` (lines 168-204): like `withRetry` (same attempt
budget and backoff) but it returns `{result, error}` instead of
throwing; the error, if any, is the raw last attempt error. -/
def retryOperation {α : Type} (op : Nat → AttemptOutcome α) : Except String α :=
  (withRetryGo op scanRetries 1 scanRetryDelay "").result

/-- `phase.toLowerCase().replace(/\s+/g, '') + 'Duration'`
(line 226). -/
def timeMetricKey (phase : String) : String :=
  String.mk ((phase.toLower.data.filter (fun c => !c.isWhitespace))) ++
    "Duration"

/-- The guarded time-metric write of lines 226-229: only keys that
exist on `stats.timeMetrics` are written (note `AJAX Spider` lowers to
`ajaxspiderDuration`, which is not a key, so its duration is never
recorded). -/
def updateTimeMetric (phase : String) (duration : Nat)
    (stats : ZAPScanStats) : ZAPScanStats :=
  let key := timeMetricKey phase
  if key = "spiderDuration" then
    { stats with timeMetrics := { stats.timeMetrics with spiderDuration := duration } }
  else if key = "ajaxSpiderDuration" then
    { stats with timeMetrics := { stats.timeMetrics with ajaxSpiderDuration := duration } }
  else if key = "activeScanDuration" then
    { stats with timeMetrics := { stats.timeMetrics with activeScanDuration := duration } }
  else if key = "totalDuration" then
    { stats with timeMetrics := { stats.timeMetrics with totalDuration := duration } }
  else stats

/-- `executePhase` (lines 206-232): run the phase operation through
`retryOperation`; on failure push a `PhaseError` and yield `none`, on
success record the phase duration. -/
def executePhase {α : Type} (phase : String) (op : Nat → AttemptOutcome α)
    (duration : Nat) (ts : String) (stats : ZAPScanStats)
    (errors : List PhaseError) :
    Option α × ZAPScanStats × List PhaseError :=
  match retryOperation op with
  | Except.error e =>
    (none, stats,
      errors ++ [{ phase := phase, message := e, timestamp := ts }])
  | Except.ok v => (some v, updateTimeMetric phase duration stats, errors)

/-- `executeScanPhase` (lines 234-246): wraps `executePhase` in a
`try`/`catch`; since `executePhase` never throws, it always reports
success. -/
def executeScanPhase (phase : String) (op : Nat → AttemptOutcome Unit)
    (duration : Nat) (ts : String) (stats : ZAPScanStats)
    (errors : List PhaseError) :
    Bool × ZAPScanStats × List PhaseError :=
  let r := executePhase phase op duration ts stats errors
  (true, r.2.1, r.2.2)

/-- `handleAjaxSpiderPhase` (lines 267-284).  `op` scripts, per retry
attempt, the outcome of the composite operation `withRetry(ajax start)`
followed by `waitForAjaxSpiderCompletion`. -/
def handleAjaxSpiderPhase (op : Nat → AttemptOutcome Unit)
    (duration : Nat) (ts : String) (stats : ZAPScanStats)
    (errors : List PhaseError) :
    Bool × ZAPScanStats × List PhaseError :=
  executeScanPhase "AJAX Spider" op duration ts stats errors

/-! ### The `failOnHighRisks` policy gate (`src/monitoring.ts`,
lines 246-250) -/

/-- The post-scan check in the monitoring fixture: when
`failOnHighRisks` is set and the returned scan counted any High-risk
alerts, an error reporting the count is thrown instead of returning
the report. -/
def checkHighRisks (failOnHighRisks : Bool) (zapScan : ZAPScanResult) :
    Except String ZAPScanResult :=
  if failOnHighRisks ∧ 0 < zapScan.stats.alertsByRisk.High then
    Except.error ("Security scan failed: Found " ++
      toString zapScan.stats.alertsByRisk.High ++ " high-risk vulnerabilities")
  else Except.ok zapScan

instance instDecEqExcept {ε α : Type} [DecidableEq ε] [DecidableEq α] :
    DecidableEq (Except ε α) := fun x y =>
  match x, y with
  | Except.ok a, Except.ok b =>
    if h : a = b then isTrue (by rw [h])
    else isFalse (fun hc => h (Except.ok.inj hc))
  | Except.ok _, Except.error _ => isFalse (fun hc => Except.noConfusion hc)
  | Except.error _, Except.ok _ => isFalse (fun hc => Except.noConfusion hc)
  | Except.error a, Except.error b =>
    if h : a = b then isTrue (by rw [h])
    else isFalse (fun hc => h (Except.error.inj hc))

/-- Discriminator for successful `Except` values. -/
def exceptIsOk {ε α : Type} : Except ε α → Bool
  | Except.ok _ => true
  | Except.error _ => false

/-- The sum of the four per-risk alert buckets of a
`ZAPScanStats.alertsByRisk` record. -/
def riskSum (c : RiskCounts) : Nat :=
  c.High + c.Medium + c.Low + c.Informational

/-! ### Concrete sample inputs used by witnesses and counterexamples -/

/-- An operation that succeeds on every attempt. -/
def opOkUnit : Nat → AttemptOutcome Unit :=
  fun _ => AttemptOutcome.ok ()

/-- The end-to-end example options of the spec (§8): empty auth
headers, 10 req/s, 3600 s max scan duration, no high-risk gate. -/
def sampleOptions : ZAPScanOptions :=
  { authHeaders := []
    maxRequestsPerSecond := 10
    maxScanDuration := 3600
    failOnHighRisks := false
    excludeUrls := []
    includeUrls := []
    scanPolicyName := none
    threadCount := none
    maxDepth := none }

/-- A Medium-risk sample alert. -/
def sampleAlertMedium : RawAlert :=
  { risk := AlertRisk.Medium
    confidence := "High"
    url := UrlInput.parsed "http://example.com/a" [("q", "1")]
    name := "X-Content-Type-Options Header Missing"
    description := "desc"
    solution := "set the header"
    reference := "ref"
    param := "q"
    attack := ""
    evidence := ""
    cweid := "693"
    wascid := "15"
    pluginid := "10021" }

/-- A Low-risk sample alert. -/
def sampleAlertLow : RawAlert :=
  { sampleAlertMedium with
    risk := AlertRisk.Low
    name := "Cookie Without Secure Flag"
    pluginid := "10011" }

/-- A High-risk sample alert whose URL carries `key` and `token` query
parameters. -/
def sampleAlertKeyUrl : RawAlert :=
  { sampleAlertMedium with
    risk := AlertRisk.High
    url := UrlInput.parsed "https://example.com/login"
      [("key", "secret123"), ("next", "home"), ("token", "abc")]
    name := "SQL Injection"
    pluginid := "40018" }

/-- A fully successful daemon script: connection verified, every
configuration and start operation succeeds at the first attempt, both
pollers observe immediate completion, two alerts and 42 messages are
collected. -/
def envAllOk : ScanEnv :=
  { version := Except.ok "2.14.0"
    configOps := opOkUnit
    authHeaderOps := opOkUnit
    ctxOps := opOkUnit
    initOps := opOkUnit
    spiderStartOps := fun _ => AttemptOutcome.ok "1"
    spiderPolls := [(5000, Except.ok "100")]
    ascanStartOps := fun _ => AttemptOutcome.ok "2"
    ascanPolls := [(5000, Except.ok "100")]
    alertOps := fun _ => AttemptOutcome.ok [sampleAlertMedium, sampleAlertLow]
    countOps := fun _ => AttemptOutcome.ok 42
    targetUrl := "http://example.com"
    now := 1700000000000
    scanStart := 1700000000000
    nowStr := "2023-11-14T22:13:20.000Z" }

/-- `envAllOk` with an unreachable daemon at connection-verification
time. -/
def envVerifyFail : ScanEnv :=
  { envAllOk with
    version := Except.error "connect ECONNREFUSED 127.0.0.1:8080" }

/-- `envAllOk` with the active-scan start refused on every attempt. -/
def envAscanFail : ScanEnv :=
  { envAllOk with
    ascanStartOps :=
      fun _ => AttemptOutcome.err "connect ECONNREFUSED 127.0.0.1:8080" }

/-- `envAllOk` whose alert list contains a URL with sensitive query
parameters. -/
def envKeyUrl : ScanEnv :=
  { envAllOk with
    alertOps := fun _ => AttemptOutcome.ok [sampleAlertKeyUrl, sampleAlertMedium] }

/-- A composite AJAX-spider operation that fails on every retry
attempt. -/
def opAjaxFail : Nat → AttemptOutcome Unit :=
  fun _ => AttemptOutcome.err
    ("AJAX Spider Start failed after 3 attempts. Last error: " ++
      "read ECONNRESET")

/-- A completed scan result that counted 2 High-risk alerts (for the
`failOnHighRisks` gate). -/
def resHighRisks : ZAPScanResult :=
  { scanId := 1700000000000
    duration := 120000
    timestamp := "2023-11-14T22:13:20.000Z"
    targetUrl := "http://example.com"
    scanType := "quick"
    contextName := "scan-context-1700000000000"
    status := ScanStatus.completed
    stats :=
      { initialStats with
        alertsByRisk := { High := 2, Medium := 0, Low := 1, Informational := 0 } }
    alerts := []
    errors := []
    errorReport := "No errors occurred during the scan." }

/-- Concrete daemon operation for the C1 witness: every attempt is
refused. -/
def opAllFailC1 : Nat → AttemptOutcome Unit :=
  fun _ => AttemptOutcome.err "connect ECONNREFUSED 127.0.0.1:8080"

/-- Concrete operation for the C8 counterexample: a network failure on
attempt 1 doubles the backoff, and the non-network failure on attempt
2 keeps the doubled value (the single `backoffDelay` variable is never
reset). -/
def opMixedC8 : Nat → AttemptOutcome Unit :=
  fun n =>
    if n = 1 then AttemptOutcome.err "connect ECONNREFUSED 127.0.0.1:8080"
    else AttemptOutcome.err "ZAP Configuration failed: bad response"

/-- All-network-failure operation for the C8 witness. -/
def opNetC8 : Nat → AttemptOutcome Unit :=
  fun _ => AttemptOutcome.err "read ETIMEDOUT"

/-- Advancing progress sequence for the C2 witness. -/
def pollsAdvancing : List (Nat × Except String String) :=
  [(0, Except.ok "10"), (5000, Except.ok "20"), (10000, Except.ok "30")]

/-- A status check that is refused on every attempt (C3 failing
input). -/
def opStatusFailC3 : Nat → AttemptOutcome String :=
  fun _ => AttemptOutcome.err "connect ECONNREFUSED 127.0.0.1:8080"

/-- Options configuring `maxScanDuration = 3600` seconds (for the C7
counterexample). -/
def optionsC7 : ZAPScanOptions :=
  { authHeaders := []
    maxRequestsPerSecond := 10
    maxScanDuration := 3600
    failOnHighRisks := false
    excludeUrls := []
    includeUrls := []
    scanPolicyName := none
    threadCount := none
    maxDepth := none }

/-- Full case analysis of one `withRetry` call in terms of the outcomes
of the (at most three) attempts. -/
theorem withRetry_eq {α : Type} (op : Nat → AttemptOutcome α) (name : String) :
    withRetry op name =
      match op 1 with
      | AttemptOutcome.ok v => ⟨Except.ok v, 1, []⟩
      | AttemptOutcome.err m1 =>
        let d1 := if isNetworkError m1 then 10000 else 5000
        match op 2 with
        | AttemptOutcome.ok v => ⟨Except.ok v, 2, [d1]⟩
        | AttemptOutcome.err m2 =>
          let d2 := if isNetworkError m2 then d1 * 2 else d1
          match op 3 with
          | AttemptOutcome.ok v => ⟨Except.ok v, 3, [d1, d2]⟩
          | AttemptOutcome.err m3 =>
            ⟨Except.error (retryFailMsg name m3), 3, [d1, d2]⟩ := by
  unfold withRetry scanRetries scanRetryDelay
  cases h1 : op 1 with
  | ok v => simp [withRetryGo, h1]
  | err m1 =>
    cases h2 : op 2 with
    | ok v =>
      by_cases hn1 : isNetworkError m1 <;>
        simp [withRetryGo, h1, h2, hn1]
    | err m2 =>
      cases h3 : op 3 with
      | ok v =>
        by_cases hn1 : isNetworkError m1 <;>
          by_cases hn2 : isNetworkError m2 <;>
            simp [withRetryGo, h1, h2, h3, hn1, hn2]
      | err m3 =>
        by_cases hn1 : isNetworkError m1 <;>
          by_cases hn2 : isNetworkError m2 <;>
            simp [withRetryGo, h1, h2, h3, hn1, hn2]

/-- The composite message thrown after the final failure, flattened. -/
theorem retryFailMsg_eq (name m : String) :
    retryFailMsg name m =
      name ++ " failed after 3 attempts. Last error: " ++ m := by
  show name ++ " failed after " ++ toString scanRetries ++
      " attempts. Last error: " ++ m = _
  rw [String.append_assoc (name ++ " failed after ")]
  rw [String.append_assoc name " failed after "]
  rw [show (" failed after " ++ (toString scanRetries ++
      " attempts. Last error: ")) = " failed after 3 attempts. Last error: "
    from rfl]

/-- C1: for every operation and label, `withRetry` invokes the wrapped
operation at most 3 times; when the first three attempts all fail it
invokes it exactly 3 times (never a 4th) and throws an error embedding
the label, the attempt count 3, and the last underlying error message;
and it only fails this way: any error outcome means all three attempts
failed with exactly that composite message. -/
theorem withRetry_three_attempts {α : Type} (op : Nat → AttemptOutcome α)
    (name : String) :
    (withRetry op name).calls ≤ 3 ∧
    (∀ m1 m2 m3, op 1 = AttemptOutcome.err m1 → op 2 = AttemptOutcome.err m2 →
      op 3 = AttemptOutcome.err m3 →
      (withRetry op name).calls = 3 ∧
      (withRetry op name).result =
        Except.error (name ++ " failed after 3 attempts. Last error: " ++ m3)) ∧
    (∀ e, (withRetry op name).result = Except.error e →
      ∃ m1 m2 m3, op 1 = AttemptOutcome.err m1 ∧ op 2 = AttemptOutcome.err m2 ∧
        op 3 = AttemptOutcome.err m3 ∧
        e = name ++ " failed after 3 attempts. Last error: " ++ m3) := by
  rw [withRetry_eq op name]
  cases h1 : op 1 with
  | ok v => simp [h1]
  | err m1 =>
    cases h2 : op 2 with
    | ok v => simp [h1, h2]
    | err m2 =>
      cases h3 : op 3 with
      | ok v => simp [h1, h2, h3]
      | err m3 => simp [h1, h2, h3, retryFailMsg_eq]

/-- C1 witness: with every attempt failing, `withRetry` makes exactly 3
calls and throws the composite labelled error. -/
theorem withRetry_three_attempts_witness :
    (withRetry opAllFailC1 "Spider Scan Start").calls = 3 ∧
    (withRetry opAllFailC1 "Spider Scan Start").result =
      Except.error
        ("Spider Scan Start failed after 3 attempts. Last error: " ++
          "connect ECONNREFUSED 127.0.0.1:8080") :=
  (withRetry_three_attempts opAllFailC1 "Spider Scan Start").2.1
    "connect ECONNREFUSED 127.0.0.1:8080"
    "connect ECONNREFUSED 127.0.0.1:8080"
    "connect ECONNREFUSED 127.0.0.1:8080" rfl rfl rfl

/-- C8 counterexample: after the non-network failure of attempt 2 the
delay before attempt 3 is the carried-over 10000 ms, not the constant
base `scanRetryDelay = 5000` the claim requires. -/
theorem withRetry_backoff_counterexample :
    (withRetry opMixedC8 "ZAP Configuration").delays = [10000, 10000] ∧
    (10000 : Nat) ≠ scanRetryDelay := by
  refine ⟨by decide, by decide⟩

/-- C8 (amended): the backoff delay starts at `scanRetryDelay` (5 s)
and is doubled after each attempt whose error is classified as a
network error; it is never reset, so after a non-network failure it
stays at its current value — equal to the base only when no earlier
attempt in the same call failed with a network error.  Delays are
non-decreasing, and for a run of network errors the delay before
attempt `i+1` is at least `base * 2^(i-1)`. -/
theorem withRetry_backoff_delays {α : Type} (op : Nat → AttemptOutcome α)
    (name m1 m2 : String)
    (h1 : op 1 = AttemptOutcome.err m1) (h2 : op 2 = AttemptOutcome.err m2) :
    ∃ d1 d2, (withRetry op name).delays = [d1, d2] ∧
      d1 = (if isNetworkError m1 then scanRetryDelay * 2 else scanRetryDelay) ∧
      d2 = (if isNetworkError m2 then d1 * 2 else d1) ∧
      d1 ≤ d2 ∧
      (isNetworkError m1 = true → scanRetryDelay * 2 ^ 0 ≤ d1) ∧
      (isNetworkError m1 = true → isNetworkError m2 = true →
        scanRetryDelay * 2 ^ 1 ≤ d2) ∧
      (isNetworkError m1 = false → d1 = scanRetryDelay) ∧
      (isNetworkError m1 = false → isNetworkError m2 = false →
        d2 = scanRetryDelay) := by
  rw [withRetry_eq op name]
  cases h3 : op 3 with
  | ok v =>
    by_cases hn1 : isNetworkError m1 <;> by_cases hn2 : isNetworkError m2 <;>
      refine ⟨_, _, by simp [h1, h2, h3, hn1, hn2, scanRetryDelay], rfl, rfl,
        ?_, ?_, ?_, ?_, ?_⟩ <;>
      simp [hn1, hn2, scanRetryDelay]
  | err m3 =>
    by_cases hn1 : isNetworkError m1 <;> by_cases hn2 : isNetworkError m2 <;>
      refine ⟨_, _, by simp [h1, h2, h3, hn1, hn2, scanRetryDelay], rfl, rfl,
        ?_, ?_, ?_, ?_, ?_⟩ <;>
      simp [hn1, hn2, scanRetryDelay]

/-- C8 witness: two consecutive network errors give the doubled,
non-decreasing delays 10 s and 20 s. -/
theorem withRetry_backoff_delays_witness :
    ∃ d1 d2, (withRetry opNetC8 "Spider Scan Start").delays = [d1, d2] ∧
      d1 = (if isNetworkError "read ETIMEDOUT" then scanRetryDelay * 2
            else scanRetryDelay) ∧
      d2 = (if isNetworkError "read ETIMEDOUT" then d1 * 2 else d1) ∧
      d1 ≤ d2 ∧
      (isNetworkError "read ETIMEDOUT" = true → scanRetryDelay * 2 ^ 0 ≤ d1) ∧
      (isNetworkError "read ETIMEDOUT" = true →
        isNetworkError "read ETIMEDOUT" = true → scanRetryDelay * 2 ^ 1 ≤ d2) ∧
      (isNetworkError "read ETIMEDOUT" = false → d1 = scanRetryDelay) ∧
      (isNetworkError "read ETIMEDOUT" = false →
        isNetworkError "read ETIMEDOUT" = false → d2 = scanRetryDelay) :=
  withRetry_backoff_delays opNetC8 "Spider Scan Start"
    "read ETIMEDOUT" "read ETIMEDOUT" rfl rfl

/-! ### Stall detection (C2) -/

/-- A constant run survives prefixing. -/
theorem hasConstRun_append_left (pre l : List Int) (k : Nat)
    (h : HasConstRun l k) : HasConstRun (pre ++ l) k := by
  obtain ⟨i, hik, hall⟩ := h
  refine ⟨pre.length + i, ?_, ?_⟩
  · simp only [List.length_append]
    omega
  · intro j hj
    have e1 : ∀ n, (pre ++ l).get? (pre.length + i + n) = l.get? (i + n) := by
      intro n
      rw [List.get?_eq_getElem?, List.get?_eq_getElem?,
        List.getElem?_append_right (by omega)]
      congr 1
      omega
    have e0 := e1 0
    simp only [Nat.add_zero] at e0
    rw [e1 j, e0]
    exact hall j hj

/-- Indexing into the replicated prefix. -/
theorem get?_replicate_append {a : Int} {n : Nat} {t : List Int} {j : Nat}
    (h : j < n) : (List.replicate n a ++ t).get? j = some a := by
  rw [List.get?_eq_getElem?, List.getElem?_append_left (by simpa using h)]
  simp [List.getElem?_replicate, h]

/-- Peeling one element off a replicated prefix. -/
theorem replicate_append_cons (a : Int) (n : Nat) (t : List Int) :
    List.replicate (n + 1) a ++ t = List.replicate n a ++ (a :: t) := by
  rw [List.replicate_succ']
  simp

/-- If the poll loop reports a stall from state `(lp, sc)`, then the
value list, prefixed by `sc + 1` copies of the tracked value, contains
13 consecutive equal entries — i.e. 12 consecutive polls reported a
value unchanged from the tracked previous one. -/
theorem goPoll_stalled_run (ic : String → Except String Bool) (timeout : Nat) :
    ∀ (polls : List (Nat × Except String String)) (lp : Int) (sc : Nat)
      (p : Int),
      goPoll ic timeout polls lp sc = PollResult.stalled p →
      HasConstRun (List.replicate (sc + 1) lp ++ pollValues polls)
        (maxStaleChecks + 1) := by
  intro polls
  induction polls with
  | nil => intro lp sc p h; simp [goPoll] at h
  | cons head rest ih =>
    intro lp sc p h
    obtain ⟨elapsed, statusRes⟩ := head
    by_cases ht : timeout < elapsed
    · simp [goPoll, ht] at h
    · cases statusRes with
      | error msg => simp [goPoll, ht] at h
      | ok status =>
        cases hp : parseIntM status with
        | none =>
          cases hic : ic status with
          | error m => simp [goPoll, ht, hp, hic] at h
          | ok b =>
            cases b with
            | true => simp [goPoll, ht, hp, hic] at h
            | false =>
              have h' : goPoll ic timeout rest lp sc = PollResult.stalled p := by
                simpa [goPoll, ht, hp, hic] using h
              have hrun := ih lp sc p h'
              simpa [pollValues, List.filterMap_cons, hp] using hrun
        | some pv =>
          have hval : pollValues ((elapsed, Except.ok status) :: rest) =
              pv :: pollValues rest := by
            simp [pollValues, List.filterMap_cons, hp]
          by_cases hpe : pv = lp
          · subst hpe
            by_cases hsc : maxStaleChecks ≤ sc + 1
            · rw [hval, ← replicate_append_cons pv (sc + 1) (pollValues rest)]
              refine ⟨0, ?_, ?_⟩
              · simp only [Nat.zero_add, List.length_append,
                  List.length_replicate]
                simp only [maxStaleChecks] at hsc ⊢
                omega
              · intro j hj
                simp only [Nat.zero_add]
                simp only [maxStaleChecks] at hsc hj
                rw [get?_replicate_append (show j < sc + 1 + 1 by omega),
                  get?_replicate_append (show 0 < sc + 1 + 1 by omega)]
            · cases hic : ic status with
              | error m => simp [goPoll, ht, hp, hsc, hic] at h
              | ok b =>
                cases b with
                | true => simp [goPoll, ht, hp, hsc, hic] at h
                | false =>
                  have h' : goPoll ic timeout rest pv (sc + 1) =
                      PollResult.stalled p := by
                    simpa [goPoll, ht, hp, hsc, hic] using h
                  have hrun := ih pv (sc + 1) p h'
                  rw [replicate_append_cons pv (sc + 1)] at hrun
                  rw [hval]
                  exact hrun
          · cases hic : ic status with
            | error m => simp [goPoll, ht, hp, hpe, hic] at h
            | ok b =>
              cases b with
              | true => simp [goPoll, ht, hp, hpe, hic] at h
              | false =>
                have h' : goPoll ic timeout rest pv 0 =
                    PollResult.stalled p := by
                  simpa [goPoll, ht, hp, hpe, hic] using h
                have hrun := ih pv 0 p h'
                have hval : pollValues ((elapsed, Except.ok status) :: rest) =
                    pv :: pollValues rest := by
                  simp [pollValues, List.filterMap_cons, hp]
                rw [hval]
                refine hasConstRun_append_left (List.replicate (sc + 1) lp) _ _ ?_
                simpa using hrun

/-- C2: `waitForCompletion` raises the stall error exactly on the 12th
consecutive poll reporting a numeric value unchanged from the tracked
previous one (`maxStaleChecks = 12`, tracked value initially 0), and
not before.  (1) Universally: whenever the reported numeric values,
prefixed by the initial 0, contain no run of 13 consecutive equal
entries — i.e. no point at which 12 consecutive polls reported an
unchanged value — the loop never stalls.  (2)-(3) A constant progress
sequence `50` stalls on the 13th poll (whose 12 trailing polls all
repeat the previous value) and is still polling after 12 polls (only
11 of which repeat the previous value). -/
theorem waitForCompletion_stall_characterization :
    (∀ (ic : String → Except String Bool) (operation : String) (timeout : Nat)
        (polls : List (Nat × Except String String)),
      ¬ HasConstRun ((0 : Int) :: pollValues polls) (maxStaleChecks + 1) →
      (waitForCompletion ic operation timeout polls).isStalled = false) ∧
    (waitForCompletion spiderIsComplete "Spider Scan" timeouts.spider
        (List.replicate 13 (0, Except.ok "50")) = PollResult.stalled 50) ∧
    ((waitForCompletion spiderIsComplete "Spider Scan" timeouts.spider
        (List.replicate 12 (0, Except.ok "50"))).isStalled = false) := by
  refine ⟨?_, by decide, by decide⟩
  intro ic operation timeout polls hno
  cases hres : waitForCompletion ic operation timeout polls with
  | stalled p =>
    exact absurd
      (by simpa using goPoll_stalled_run ic timeout polls 0 0 p hres)
      hno
  | completed => rfl
  | pending => rfl
  | timedOut e => rfl
  | checkFailed m => rfl
  | invalidStatus m => rfl

/-- C2 witness: an advancing progress sequence has no 12 consecutive
unchanged polls and indeed never stalls. -/
theorem waitForCompletion_stall_witness :
    (waitForCompletion spiderIsComplete "Spider Scan" timeouts.spider
      pollsAdvancing).isStalled = false :=
  waitForCompletion_stall_characterization.1 spiderIsComplete "Spider Scan"
    timeouts.spider pollsAdvancing (by decide)

/-- C3: evaluation of `waitForCompletion` at the failing input.  When
the `checkStatus` wrapped in `withRetry` fails on 3 consecutive
attempts during one poll, the `catch` at lines 745-751 logs the error
and then re-throws it (the `throw error` after the log), so polling
terminates with the status-check error — neither a timeout nor a
stall — contradicting the claim that only timeout/stall conditions
terminate polling.  (The guarded `// Re-throw stall errors` branch is
dead code under this behavior, which marks the unconditional re-throw
as a slip.) -/
theorem waitForCompletion_statusCheckFailure_terminates :
    waitForCompletion spiderIsComplete "Spider Scan" timeouts.spider
        [(5000, (withRetry opStatusFailC3 "Spider Scan Status Check").result)] =
      PollResult.checkFailed
        ("Spider Scan Status Check failed after 3 attempts. Last error: " ++
          "connect ECONNREFUSED 127.0.0.1:8080") ∧
    (waitForCompletion spiderIsComplete "Spider Scan" timeouts.spider
        [(5000, (withRetry opStatusFailC3
          "Spider Scan Status Check").result)]).isTimedOut = false ∧
    (waitForCompletion spiderIsComplete "Spider Scan" timeouts.spider
        [(5000, (withRetry opStatusFailC3
          "Spider Scan Status Check").result)]).isStalled = false ∧
    (waitForCompletion spiderIsComplete "Spider Scan" timeouts.spider
        [(5000, (withRetry opStatusFailC3
          "Spider Scan Status Check").result)]).isPending = false := by
  refine ⟨by decide, by decide, by decide, by decide⟩

/-- C7 counterexample: the active-scan poller's timeout differs from
the configured `maxScanDuration` (in both plausible units), and a poll
past the configured duration is still accepted. -/
theorem waitForScanCompletion_ignores_maxScanDuration :
    waitForScanCompletion [(3600001, Except.ok "50")] = PollResult.pending ∧
    optionsC7.maxScanDuration = 3600 ∧
    timeouts.activeScan = 14400000 ∧
    timeouts.activeScan ≠ optionsC7.maxScanDuration * 1000 ∧
    timeouts.activeScan ≠ optionsC7.maxScanDuration := by
  refine ⟨by decide, rfl, rfl, by decide, by decide⟩

/-- C7 (amended): the poll loop throws a timeout error whenever the
wall-clock time observed at a loop head exceeds the timeout argument,
no matter what the poll would have reported (so even while progress is
advancing); the active-scan poller runs with the fixed 4-hour
`timeouts.activeScan`, while the configured `maxScanDuration` is
instead passed to the daemon as the `maxDuration` scan option. -/
theorem waitForCompletion_timeout_behavior :
    (∀ (ic : String → Except String Bool) (timeout elapsed : Nat)
        (sr : Except String String)
        (rest : List (Nat × Except String String)) (lp : Int) (sc : Nat),
      timeout < elapsed →
      goPoll ic timeout ((elapsed, sr) :: rest) lp sc =
        PollResult.timedOut elapsed) ∧
    (∀ (elapsed : Nat) (sr : Except String String)
        (rest : List (Nat × Except String String)),
      timeouts.activeScan < elapsed →
      waitForScanCompletion ((elapsed, sr) :: rest) =
        PollResult.timedOut elapsed) ∧
    (∀ (options : ZAPScanOptions) (isFullScan : Bool),
      (ascanScanOptions options isFullScan).maxDuration =
        options.maxScanDuration) := by
  refine ⟨?_, ?_, ?_⟩
  · intro ic timeout elapsed sr rest lp sc h
    simp [goPoll, h]
  · intro elapsed sr rest h
    simp [waitForScanCompletion, waitForCompletion, goPoll, h]
  · intro options isFullScan
    rfl

/-- C7 witness: a poll at 14 400 001 ms with progress advancing to 99
still times out, and for the example options the daemon-side
`maxDuration` equals the configured 3600. -/
theorem waitForCompletion_timeout_behavior_witness :
    waitForScanCompletion ((14400001, Except.ok "99") ::
        [(14405001, Except.ok "100")]) = PollResult.timedOut 14400001 ∧
    (ascanScanOptions optionsC7 false).maxDuration =
      optionsC7.maxScanDuration :=
  ⟨waitForCompletion_timeout_behavior.2.1 14400001 (Except.ok "99")
      [(14405001, Except.ok "100")] (by decide),
    waitForCompletion_timeout_behavior.2.2 optionsC7 false⟩

/-! ### Alert aggregation (C4, C10) -/

/-- Bumping one risk bucket adds exactly one to the bucket sum. -/
theorem riskSum_bumpRisk (c : RiskCounts) (r : AlertRisk) :
    riskSum (bumpRisk c r) = riskSum c + 1 := by
  cases r <;> simp [riskSum, bumpRisk] <;> omega

/-- The `forEach` aggregation adds exactly the number of alerts to the
bucket sum. -/
theorem riskSum_bumpAll (alerts : List RawAlert) :
    ∀ c, riskSum (bumpAll c alerts) = riskSum c + alerts.length := by
  induction alerts with
  | nil => intro c; simp [bumpAll]
  | cons a rest ih =>
    intro c
    have := ih (bumpRisk c a.risk)
    simp only [bumpAll, List.foldl_cons] at this ⊢
    rw [this, riskSum_bumpRisk]
    simp only [List.length_cons]
    omega

/-- C4: for every `ScanResult` produced by `collectScanResults` (which
`executeScan` always calls with the zero-initialised stats), the sum
`High + Medium + Low + Informational` of `stats.alertsByRisk` equals
the length of the result's alert list. -/
theorem collectScanResults_riskSum (env : ScanEnv) (contextName : String)
    (isFullScan : Bool) (errors : List PhaseError) (r : ZAPScanResult)
    (h : collectScanResults env contextName initialStats isFullScan errors =
      Except.ok r) :
    riskSum r.stats.alertsByRisk = r.alerts.length := by
  unfold collectScanResults at h
  cases h1 : (withRetry env.alertOps "Alert Collection").result with
  | error e => rw [h1] at h; exact absurd h (by simp)
  | ok alerts =>
    rw [h1] at h
    cases h2 : (withRetry env.countOps "Request Count").result with
    | error e => rw [h2] at h; exact absurd h (by simp)
    | ok requestCount =>
      rw [h2] at h
      simp only [Except.ok.injEq] at h
      subst h
      simp only [List.length_map]
      rw [show riskSum (bumpAll initialStats.alertsByRisk alerts) =
          riskSum initialStats.alertsByRisk + alerts.length
        from riskSum_bumpAll alerts initialStats.alertsByRisk]
      simp [initialStats, riskSum]

/-- C4 witness: the sample collection (one Medium and one Low alert)
satisfies the bucket-sum invariant. -/
theorem collectScanResults_riskSum_witness :
    ∃ r, collectScanResults envAllOk "scan-context-1700000000000"
        initialStats false [] = Except.ok r ∧
      riskSum r.stats.alertsByRisk = r.alerts.length := by
  have hok : exceptIsOk (collectScanResults envAllOk
      "scan-context-1700000000000" initialStats false []) = true := by decide
  cases hr : collectScanResults envAllOk "scan-context-1700000000000"
      initialStats false [] with
  | error e => rw [hr] at hok; exact absurd hok (by simp [exceptIsOk])
  | ok r =>
    exact ⟨r, rfl, collectScanResults_riskSum envAllOk
      "scan-context-1700000000000" false [] r hr⟩

/-- C10: every alert in a result produced by `collectScanResults` has
its URL passed through `sanitizeUrl` first, so no parsed returned
alert URL carries a query parameter named `key`, `token`, `password`,
`secret` or `auth`.  (For a URL `new URL` cannot parse, the source
falls back to a regex rewrite of the raw string, where "query
parameter" has no structured meaning; such URLs sidestep the parsed
form and are outside this statement.) -/
theorem collectScanResults_sanitizedUrls (env : ScanEnv)
    (contextName : String) (isFullScan : Bool) (errors : List PhaseError)
    (r : ZAPScanResult)
    (h : collectScanResults env contextName initialStats isFullScan errors =
      Except.ok r) :
    ∀ a ∈ r.alerts, ∀ base ps, a.url = UrlInput.parsed base ps →
      ∀ pr ∈ ps, pr.1 ∉ sensitiveParams := by
  unfold collectScanResults at h
  cases h1 : (withRetry env.alertOps "Alert Collection").result with
  | error e => rw [h1] at h; exact absurd h (by simp)
  | ok alerts =>
    rw [h1] at h
    cases h2 : (withRetry env.countOps "Request Count").result with
    | error e => rw [h2] at h; exact absurd h (by simp)
    | ok requestCount =>
      rw [h2] at h
      simp only [Except.ok.injEq] at h
      subst h
      intro a ha base ps hurl pr hpr
      simp only [List.mem_map] at ha
      obtain ⟨a0, _, ha0⟩ := ha
      subst ha0
      simp only [mapAlert] at hurl
      cases hu : a0.url with
      | raw s => rw [hu] at hurl; simp [sanitizeUrl] at hurl
      | parsed base0 ps0 =>
        rw [hu] at hurl
        simp only [sanitizeUrl, UrlInput.parsed.injEq] at hurl
        obtain ⟨_, hps⟩ := hurl
        subst hps
        have hmem := List.mem_filter.mp hpr
        intro hcontra
        have hnot := hmem.2
        simp [hcontra] at hnot

/-- C10 witness: the sample alert list containing a URL with `key` and
`token` parameters is returned with those parameters removed. -/
theorem collectScanResults_sanitizedUrls_witness :
    ∃ r, collectScanResults envKeyUrl "scan-context-1700000000000"
        initialStats false [] = Except.ok r ∧
      (∀ a ∈ r.alerts, ∀ base ps, a.url = UrlInput.parsed base ps →
        ∀ pr ∈ ps, pr.1 ∉ sensitiveParams) := by
  have hok : exceptIsOk (collectScanResults envKeyUrl
      "scan-context-1700000000000" initialStats false []) = true := by decide
  cases hr : collectScanResults envKeyUrl "scan-context-1700000000000"
      initialStats false [] with
  | error e => rw [hr] at hok; exact absurd hok (by simp [exceptIsOk])
  | ok r =>
    exact ⟨r, rfl, collectScanResults_sanitizedUrls envKeyUrl
      "scan-context-1700000000000" false [] r hr⟩

/-! ### Outcome shape of `performScan` (C5, C6) -/

/-- A successful `collectScanResults` always reports status
`completed`. -/
theorem collectScanResults_ok_completed (env : ScanEnv) (c : String)
    (s : ZAPScanStats) (f : Bool) (errs : List PhaseError) (r : ZAPScanResult)
    (h : collectScanResults env c s f errs = Except.ok r) :
    r.status = ScanStatus.completed := by
  unfold collectScanResults at h
  cases h1 : (withRetry env.alertOps "Alert Collection").result with
  | error e => rw [h1] at h; exact absurd h (by simp)
  | ok alerts =>
    rw [h1] at h
    cases h2 : (withRetry env.countOps "Request Count").result with
    | error e => rw [h2] at h; exact absurd h (by simp)
    | ok n =>
      rw [h2] at h
      simp only [Except.ok.injEq] at h
      subst h
      rfl

/-- A scan run that returns normally out of `executeScan` got its
result from `collectScanResults`, hence status `completed`. -/
theorem executeScan_ok_completed (env : ScanEnv) (ctx : String) (f : Bool)
    (o : ZAPScanOptions) (r : ZAPScanResult)
    (h : executeScan env ctx f o = some (Except.ok r)) :
    r.status = ScanStatus.completed := by
  unfold executeScan at h
  cases h1 : (withRetry env.initOps "Scan Initialization").result with
  | error e => simp only [h1] at h; simp at h
  | ok u =>
    simp only [h1] at h
    cases h2 : (withRetry env.spiderStartOps "Spider Scan Start").result with
    | error e => simp only [h2] at h; simp at h
    | ok sid =>
      simp only [h2] at h
      cases h3 : waitForSpiderCompletion env.spiderPolls with
      | pending => simp only [h3] at h; simp at h
      | completed =>
        simp only [h3] at h
        cases h4 : (withRetry env.ascanStartOps "Active Scan Start").result with
        | error e => simp only [h4] at h; simp at h
        | ok sid2 =>
          simp only [h4] at h
          cases h5 : waitForScanCompletion env.ascanPolls with
          | pending => simp only [h5] at h; simp at h
          | completed =>
            simp only [h5, Option.some.injEq] at h
            exact collectScanResults_ok_completed env ctx initialStats f [] r h
          | timedOut e => simp only [h5] at h; simp at h
          | stalled p => simp only [h5] at h; simp at h
          | checkFailed m => simp only [h5] at h; simp at h
          | invalidStatus m => simp only [h5] at h; simp at h
      | timedOut e => simp only [h3] at h; simp at h
      | stalled p => simp only [h3] at h; simp at h
      | checkFailed m => simp only [h3] at h; simp at h
      | invalidStatus m => simp only [h3] at h; simp at h

/-- C5 counterexample: when `verifyZapConnection` (which `performScan`
awaits before entering its `try`) fails, the thrown error is a plain
error with no embedded partial result, no `failed` status and no
`PhaseError` list — against the claim that every throw carries such an
embedded result. -/
theorem performScan_verifyFailure_plainThrow :
    performScan envVerifyFail false sampleOptions =
      some (Except.error (ScanThrow.plain
        ("Failed to verify ZAP connection: " ++
          "connect ECONNREFUSED 127.0.0.1:8080"))) := by
  decide

/-- C5 (amended): every terminating `performScan` call either returns
a `completed` result, or throws the `catch`-built error embedding a
partial result with status `failed` and a non-empty error list, or —
only when the pre-`try` `verifyZapConnection` fails — throws that
plain verification error without an embedded result.  In particular it
never returns a silent empty success and every embedded thrown result
is `failed` with at least one `PhaseError`. -/
theorem performScan_outcomes (env : ScanEnv) (isFullScan : Bool)
    (options : ZAPScanOptions) (res : Except ScanThrow ZAPScanResult)
    (h : performScan env isFullScan options = some res) :
    (∃ r, res = Except.ok r ∧ r.status = ScanStatus.completed) ∨
    (∃ m r, res = Except.error (ScanThrow.withResult m r) ∧
      r.status = ScanStatus.failed ∧ r.errors ≠ []) ∨
    (∃ m, res = Except.error (ScanThrow.plain m) ∧
      verifyZapConnection env.version = Except.error m) := by
  unfold performScan at h
  cases hv : verifyZapConnection env.version with
  | error m =>
    simp only [hv, Option.some.injEq] at h
    subst h
    right; right
    exact ⟨m, rfl, rfl⟩
  | ok u =>
    simp only [hv] at h
    cases hc : (withRetry env.configOps "ZAP Configuration").result with
    | error e =>
      simp only [hc, Option.some.injEq] at h
      subst h
      right; left
      exact ⟨"Scan failed: " ++ e,
        performScanCatchResult env isFullScan
          ("scan-context-" ++ toString env.now) e,
        rfl, rfl, by simp [performScanCatchResult]⟩
    | ok _ =>
      simp only [hc] at h
      cases ha : (withRetry env.authHeaderOps "Setting Auth Headers").result with
      | error e =>
        simp only [ha, Option.some.injEq] at h
        subst h
        right; left
        exact ⟨"Scan failed: " ++ e,
          performScanCatchResult env isFullScan
            ("scan-context-" ++ toString env.now) e,
          rfl, rfl, by simp [performScanCatchResult]⟩
      | ok _ =>
        simp only [ha] at h
        cases hk : (withRetry env.ctxOps "Context Initialization").result with
        | error e =>
          simp only [hk, Option.some.injEq] at h
          subst h
          right; left
          exact ⟨"Scan failed: " ++ e,
            performScanCatchResult env isFullScan
              ("scan-context-" ++ toString env.now) e,
            rfl, rfl, by simp [performScanCatchResult]⟩
        | ok _ =>
          simp only [hk] at h
          cases hx : executeScan env ("scan-context-" ++ toString env.now)
              isFullScan options with
          | none => simp only [hx] at h; exact absurd h (by simp)
          | some exr =>
            cases exr with
            | ok r =>
              simp only [hx, Option.some.injEq] at h
              subst h
              left
              exact ⟨r, rfl,
                executeScan_ok_completed env _ isFullScan options r hx⟩
            | error e =>
              simp only [hx, Option.some.injEq] at h
              subst h
              right; left
              exact ⟨"Scan failed: " ++ e,
                performScanCatchResult env isFullScan
                  ("scan-context-" ++ toString env.now) e,
                rfl, rfl, by simp [performScanCatchResult]⟩

/-- C5 witness: the all-successful daemon script terminates and lands
in the characterized outcome set (here: a `completed` result). -/
theorem performScan_outcomes_witness :
    ∃ res, performScan envAllOk false sampleOptions = some res ∧
      ((∃ r, res = Except.ok r ∧ r.status = ScanStatus.completed) ∨
       (∃ m r, res = Except.error (ScanThrow.withResult m r) ∧
         r.status = ScanStatus.failed ∧ r.errors ≠ []) ∨
       (∃ m, res = Except.error (ScanThrow.plain m) ∧
         verifyZapConnection envAllOk.version = Except.error m)) := by
  have hsome : (performScan envAllOk false sampleOptions).isSome = true := by
    decide
  cases hres : performScan envAllOk false sampleOptions with
  | none => rw [hres] at hsome; simp at hsome
  | some res =>
    exact ⟨res, rfl, performScan_outcomes envAllOk false sampleOptions res hres⟩

/-- C6: (1) when every retry attempt of the AJAX Spider phase fails,
`handleAjaxSpiderPhase` still reports success (it never throws), so a
caller proceeds to the next phase, and it records a
`PhaseError{phase: "AJAX Spider"}` carrying the last error; the scan
status is therefore never `failed` solely because of it.  (2) When the
Active Scan start fails on all retries in an otherwise healthy run,
`performScan` throws with an embedded result whose status is
`failed`. -/
theorem ajaxSpider_nonFatal_activeScan_fatal :
    (∀ (op : Nat → AttemptOutcome Unit) (duration : Nat) (ts : String)
        (stats : ZAPScanStats) (errors : List PhaseError) (m1 m2 m3 : String),
      op 1 = AttemptOutcome.err m1 → op 2 = AttemptOutcome.err m2 →
      op 3 = AttemptOutcome.err m3 →
      handleAjaxSpiderPhase op duration ts stats errors =
        (true, stats, errors ++
          [{ phase := "AJAX Spider", message := m3, timestamp := ts }])) ∧
    (∀ (env : ScanEnv) (isFullScan : Bool) (options : ZAPScanOptions)
        (sid : String) (m1 m2 m3 : String),
      verifyZapConnection env.version = Except.ok () →
      (withRetry env.configOps "ZAP Configuration").result = Except.ok () →
      (withRetry env.authHeaderOps "Setting Auth Headers").result =
        Except.ok () →
      (withRetry env.ctxOps "Context Initialization").result = Except.ok () →
      (withRetry env.initOps "Scan Initialization").result = Except.ok () →
      (withRetry env.spiderStartOps "Spider Scan Start").result =
        Except.ok sid →
      waitForSpiderCompletion env.spiderPolls = PollResult.completed →
      env.ascanStartOps 1 = AttemptOutcome.err m1 →
      env.ascanStartOps 2 = AttemptOutcome.err m2 →
      env.ascanStartOps 3 = AttemptOutcome.err m3 →
      ∃ m r, performScan env isFullScan options =
          some (Except.error (ScanThrow.withResult m r)) ∧
        r.status = ScanStatus.failed ∧ r.errors ≠ []) := by
  constructor
  · intro op duration ts stats errors m1 m2 m3 h1 h2 h3
    unfold handleAjaxSpiderPhase executeScanPhase executePhase retryOperation
    simp [withRetryGo, scanRetries, h1, h2, h3]
  · intro env isFullScan options sid m1 m2 m3 hv hc ha hk hi hs hp h1 h2 h3
    have hasc : (withRetry env.ascanStartOps "Active Scan Start").result =
        Except.error (retryFailMsg "Active Scan Start" m3) := by
      rw [withRetry_eq]
      simp [h1, h2, h3]
    refine ⟨"Scan failed: " ++ retryFailMsg "Active Scan Start" m3,
      performScanCatchResult env isFullScan
        ("scan-context-" ++ toString env.now)
        (retryFailMsg "Active Scan Start" m3), ?_, rfl,
      by simp [performScanCatchResult]⟩
    unfold performScan
    simp only [hv, hc, ha, hk]
    unfold executeScan
    simp only [hi, hs, hp, hasc]

/-- C6 witness: a run with the AJAX-spider composite operation failing
on every attempt, and a run with the active-scan start refused on
every attempt. -/
theorem ajaxSpider_nonFatal_activeScan_fatal_witness :
    handleAjaxSpiderPhase opAjaxFail 0 "2023-11-14T22:13:20.000Z"
        initialStats [] =
      (true, initialStats, [] ++
        [{ phase := "AJAX Spider",
           message := "AJAX Spider Start failed after 3 attempts. Last error: " ++
             "read ECONNRESET",
           timestamp := "2023-11-14T22:13:20.000Z" }]) ∧
    (∃ m r, performScan envAscanFail false sampleOptions =
        some (Except.error (ScanThrow.withResult m r)) ∧
      r.status = ScanStatus.failed ∧ r.errors ≠ []) :=
  ⟨ajaxSpider_nonFatal_activeScan_fatal.1 opAjaxFail 0
      "2023-11-14T22:13:20.000Z" initialStats []
      ("AJAX Spider Start failed after 3 attempts. Last error: " ++
        "read ECONNRESET")
      ("AJAX Spider Start failed after 3 attempts. Last error: " ++
        "read ECONNRESET")
      ("AJAX Spider Start failed after 3 attempts. Last error: " ++
        "read ECONNRESET") rfl rfl rfl,
    ajaxSpider_nonFatal_activeScan_fatal.2 envAscanFail false sampleOptions
      "1" "connect ECONNREFUSED 127.0.0.1:8080"
      "connect ECONNREFUSED 127.0.0.1:8080"
      "connect ECONNREFUSED 127.0.0.1:8080"
      (by decide) (by decide) (by decide) (by decide) (by decide) (by decide)
      (by decide) rfl rfl rfl⟩

/-- C9: with `failOnHighRisks` set and a returned scan counting at
least one High-risk alert, the monitoring check throws an error
reporting the count instead of returning the (completed) scan. -/
theorem checkHighRisks_raises (r : ZAPScanResult)
    (h : 0 < r.stats.alertsByRisk.High) :
    checkHighRisks true r =
      Except.error ("Security scan failed: Found " ++
        toString r.stats.alertsByRisk.High ++ " high-risk vulnerabilities") := by
  unfold checkHighRisks
  rw [if_pos ⟨rfl, h⟩]

/-- C9 witness: a completed scan with 2 High-risk alerts makes the
gate raise. -/
theorem checkHighRisks_raises_witness :
    checkHighRisks true resHighRisks =
      Except.error ("Security scan failed: Found " ++
        toString resHighRisks.stats.alertsByRisk.High ++
        " high-risk vulnerabilities") :=
  checkHighRisks_raises resHighRisks (by decide)

end ZapScan
